import Mathlib

/-!
Verification of `gui/wxpython/rdigit/g.gui.rdigit.py` (GRASS GIS standalone
raster digitizer launcher).

The script is pure orchestration: parse options, validate them, resolve
raster names, set a rendering environment variable, construct the window
(adding one layer and wiring toolbar/signal handlers), and show it.  We
embed `main` and `RDigitMapDisplay.__init__` as a function from the inputs
(options, the raster-lookup function for the current mapset, the display
driver setting) to the list of observable events the run performs, in the
order the Python statements perform them.  `gs.parser()` failing the
`%rules` validation, and `gs.fatal`, both terminate the process, so the
trace ends there.
-/

/-- The four named options of the module, as strings; an option the user did
not supply is the empty string (what `gs.parser()` yields and Python
truthiness tests). Fields: `create`, `base`, `edit`, `rtype` (the `type`
option). -/
structure Options where
  create : String
  base : String
  edit : String
  rtype : String
deriving DecidableEq, Repr

/-- The `%rules` block of the script:
`exclusive: create, edit`, `required: create, edit`, `requires: base, create`
(the GRASS parser reads `requires: A, B` as: if A is given then B must be
given).  `gs.parser()` aborts before `main` continues unless this holds. -/
def rulesOk (o : Options) : Bool :=
  decide (¬ (o.create ≠ "" ∧ o.edit ≠ "")
    ∧ (o.create ≠ "" ∨ o.edit ≠ "")
    ∧ (o.base = "" ∨ o.create ≠ ""))

/-- A layer descriptor, the keyword arguments `_addLayer` passes to
`Map.AddLayer`. Opacity `1.0` is exact, modelled as a rational. -/
structure Layer where
  ltype : String
  name : String
  command : List String
  active : Bool
  hidden : Bool
  opacity : Rat
  render : Bool
deriving DecidableEq, Repr

/-- `RDigitMapDisplay._addLayer`: the layer record it builds for a map
`name` and layer type `ltype` (default "raster"):
`command=["d.rast", "map=<name>"], active=True, hidden=False, opacity=1.0,
render=True`. -/
def mkLayer (name ltype : String) : Layer :=
  { ltype := ltype
    name := name
    command := ["d.rast", "map=" ++ name]
    active := true
    hidden := false
    opacity := 1
    render := true }

/-- Observable events of a run, one per effectful statement of the script. -/
inductive Event where
  | parserError : Event
  | fatal : String → Event
  | setEnv : String → String → Event
  | createFrame : Nat → Nat → Event
  | setIcon : Event
  | bindCloseWindow : Event
  | connectMapCreated : Event
  | addLayer : Layer → Event
  | addToolbar : String → Event
  | unbindCombo : Event
  | selectNewMap : Bool → String → String → String → Event
  | bindCombo : String → Event
  | setSelection : Nat → Event
  | onMapSelectionCall : Event
  | disconnectQuitRDigit : Event
  | connectCloseHandler : Event
  | layoutFrame : Event
  | showFrame : Event
  | mainLoop : Event
  | cleanLayers : Event
  | updateMap : Event
deriving DecidableEq, Repr

/-- The raster-name resolution block of `main` (lines 185–214).  `lookup`
stands for `gs.find_file(...)["fullname"]`: it returns the full name of a
raster found in the current mapset and `""` when there is none.  If `edit`
is set it is resolved (fatal when absent); otherwise, if `base` is set it
is resolved (fatal when absent).  On success the pair is the final
`(edit_map, base_map)` of `kwargs`. -/
def resolveMaps (o : Options) (lookup : String → String) :
    Except String (String × String) :=
  if o.edit = "" then
    if o.base = "" then .ok (o.edit, o.base)
    else
      let b := lookup o.base
      if b = "" then
        .error ("Base raster map <" ++ o.base ++ "> not found in current mapset.")
      else .ok (o.edit, b)
  else
    let e := lookup o.edit
    if e = "" then
      .error ("Raster map <" ++ o.edit ++ "> not found in current mapset.")
    else .ok (e, o.base)

/-- `RDigitMapDisplay.__init__` (lines 86–149), as the event sequence it
performs: icon, close binding, `mapCreated` connection, one `_addLayer`
with `new_map or edit_map`, the "rdigit" toolbar, then either the
create-mode branch (unbind the map-selection combo, `SelectNewMap` with
`standalone=True`, rebind to `OnMapSelection`) or the edit-mode branch
(`SetSelection(n=1)` then `OnMapSelection()`), then the quit-signal
rewiring (`disconnect QuitRDigit`, `connect` a close lambda) and layout. -/
def initEvents (new_map base_map edit_map map_type : String) : List Event :=
  [Event.setIcon, Event.bindCloseWindow, Event.connectMapCreated,
   Event.addLayer (mkLayer (if new_map = "" then edit_map else new_map) "raster"),
   Event.addToolbar "rdigit"]
  ++ (if new_map = "" then
        [Event.setSelection 1, Event.onMapSelectionCall]
      else
        [Event.unbindCombo,
         Event.selectNewMap true new_map base_map map_type,
         Event.bindCombo "OnMapSelection"])
  ++ [Event.disconnectQuitRDigit, Event.connectCloseHandler, Event.layoutFrame]

/-- `main`: option validation by `gs.parser()` against the `%rules`
(abort on failure), raster resolution (fatal on failure), the
`GRASS_RENDER_IMMEDIATE` assignment ("png" when the user display-driver
setting is "png", "cairo" otherwise), frame construction at 850×600,
`RDigitMapDisplay.__init__`, `Show`, and the main loop. -/
def mainEvents (o : Options) (lookup : String → String) (driver : String) :
    List Event :=
  if rulesOk o then
    match resolveMaps o lookup with
    | .error msg => [Event.fatal msg]
    | .ok (edit_map, base_map) =>
      [Event.setEnv "GRASS_RENDER_IMMEDIATE"
         (if driver = "png" then "png" else "cairo"),
       Event.createFrame 850 600]
      ++ initEvents o.create base_map edit_map o.rtype
      ++ [Event.showFrame, Event.mainLoop]
  else [Event.parserError]

/-- `Map.AddLayer` appends the layer to the map's layer list (the layer is
appended to the composition). -/
def mapAddLayer (layers : List Layer) (l : Layer) : List Layer :=
  layers ++ [l]

/-- Modelled from the spec: `core.render.Map.Clean` is framework code not
under src/; per the spec, on a map-created notification "the old layer is
removed" before the replacement is added, so `Clean` empties the layer
list. -/
def mapClean (_layers : List Layer) : List Layer :=
  []

/-- `RDigitMapDisplay.OnMapCreated` (lines 167–176): `self._mapObj.Clean()`,
then `self._addLayer(name=name, ltype=ltype)`, then
`self.GetMapWindow().UpdateMap()`.  Returns the new layer list and the
events in statement order. -/
def onMapCreated (layers : List Layer) (name ltype : String) :
    List Layer × List Event :=
  let cleaned := mapClean layers
  let l := mkLayer name ltype
  (mapAddLayer cleaned l,
   [Event.cleanLayers, Event.addLayer l, Event.updateMap])

/-- Modelled from the spec: `grass.script.find_file` is not under src/; the
spec describes the resolver as looking up a named raster map in the current
mapset, failing when it is not found.  A mapset is a list of raster names;
a successful lookup yields the queried name, a failed one the empty string
(Python-falsy, which is what the script tests). -/
def specLookup (known : List String) (name : String) : String :=
  if name ∈ known then name else ""

/-- Recognizer for `addLayer` events, to count the layers a run adds. -/
def isAddLayer : Event → Bool
  | Event.addLayer _ => true
  | _ => false

/-! ## Helper lemmas -/

lemma rulesOk_iff (o : Options) :
    rulesOk o = true ↔
      ¬ (o.create ≠ "" ∧ o.edit ≠ "") ∧ (o.create ≠ "" ∨ o.edit ≠ "")
        ∧ (o.base = "" ∨ o.create ≠ "") := by
  unfold rulesOk
  exact decide_eq_true_iff

lemma create_empty_of_rules {o : Options} (hr : rulesOk o = true)
    (he : o.edit ≠ "") : o.create = "" := by
  rcases (rulesOk_iff o).mp hr with ⟨hx, -, -⟩
  by_contra hc
  exact hx ⟨hc, he⟩

lemma edit_empty_of_rules {o : Options} (hr : rulesOk o = true)
    (hc : o.create ≠ "") : o.edit = "" := by
  rcases (rulesOk_iff o).mp hr with ⟨hx, -, -⟩
  by_contra he
  exact hx ⟨hc, he⟩

/-- In an edit-mode run that resolves, the whole event trace, explicitly. -/
lemma mainEvents_edit_path (o : Options) (lookup : String → String)
    (driver : String) (hr : rulesOk o = true) (he : o.edit ≠ "")
    (hl : lookup o.edit ≠ "") :
    mainEvents o lookup driver =
      [Event.setEnv "GRASS_RENDER_IMMEDIATE"
         (if driver = "png" then "png" else "cairo"),
       Event.createFrame 850 600,
       Event.setIcon, Event.bindCloseWindow, Event.connectMapCreated,
       Event.addLayer (mkLayer (lookup o.edit) "raster"),
       Event.addToolbar "rdigit",
       Event.setSelection 1, Event.onMapSelectionCall,
       Event.disconnectQuitRDigit, Event.connectCloseHandler,
       Event.layoutFrame, Event.showFrame, Event.mainLoop] := by
  have hc : o.create = "" := create_empty_of_rules hr he
  simp only [mainEvents, hr, if_true, resolveMaps, he, if_neg he, hl,
    if_neg hl, initEvents, hc, if_pos rfl]
  rfl

/-- In a create-mode run that resolves, the whole event trace, explicitly;
the background map passed to `SelectNewMap` is the resolved `base` (which
is `base` itself when `base` is empty, since no lookup happens then). -/
lemma mainEvents_create_path (o : Options) (lookup : String → String)
    (driver : String) (hr : rulesOk o = true) (hc : o.create ≠ "")
    (hb : o.base = "" ∨ lookup o.base ≠ "") :
    mainEvents o lookup driver =
      [Event.setEnv "GRASS_RENDER_IMMEDIATE"
         (if driver = "png" then "png" else "cairo"),
       Event.createFrame 850 600,
       Event.setIcon, Event.bindCloseWindow, Event.connectMapCreated,
       Event.addLayer (mkLayer o.create "raster"),
       Event.addToolbar "rdigit",
       Event.unbindCombo,
       Event.selectNewMap true o.create
         (if o.base = "" then o.base else lookup o.base) o.rtype,
       Event.bindCombo "OnMapSelection",
       Event.disconnectQuitRDigit, Event.connectCloseHandler,
       Event.layoutFrame, Event.showFrame, Event.mainLoop] := by
  have he : o.edit = "" := edit_empty_of_rules hr hc
  rcases hb with hb0 | hbl
  · simp only [mainEvents, hr, if_true, resolveMaps, he, if_pos rfl, hb0,
      initEvents, hc, if_neg hc]
    rfl
  · by_cases hb0 : o.base = ""
    · simp only [mainEvents, hr, if_true, resolveMaps, he, if_pos rfl, hb0,
        initEvents, if_neg hc]
      rfl
    · simp only [mainEvents, hr, if_true, resolveMaps, he, if_pos rfl,
        if_neg hb0, hbl, if_neg hbl, initEvents, if_neg hc]
      rfl

/-! ## Claims -/

/-- Claim C1: for every option assignment in which both `create` and `edit`
are set, and for every assignment in which neither is set, the `%rules`
validation fails and the run ends at the parser error: no frame is ever
constructed. -/
theorem c1_create_edit_exclusive_required (o : Options)
    (lookup : String → String) (driver : String)
    (h : (o.create ≠ "" ∧ o.edit ≠ "") ∨ (o.create = "" ∧ o.edit = "")) :
    rulesOk o = false ∧ mainEvents o lookup driver = [Event.parserError] ∧
      ∀ w h2, Event.createFrame w h2 ∉ mainEvents o lookup driver := by
  have hf : rulesOk o = false := by
    rw [Bool.eq_false_iff]
    intro ht
    rcases (rulesOk_iff o).mp ht with ⟨hx, hq, -⟩
    rcases h with hboth | ⟨hc, he⟩
    · exact hx hboth
    · rcases hq with h1 | h2
      · exact h1 hc
      · exact h2 he
  refine ⟨hf, ?_, ?_⟩
  · simp [mainEvents, hf]
  · intro w h2
    simp [mainEvents, hf]

/-- Witness for C1 at a concrete assignment with both options set. -/
theorem c1_create_edit_exclusive_required_witness :
    rulesOk (Options.mk "a" "" "b" "CELL") = false ∧
      mainEvents (Options.mk "a" "" "b" "CELL") (fun _ => "") "png"
        = [Event.parserError] ∧
      ∀ w h2, Event.createFrame w h2
        ∉ mainEvents (Options.mk "a" "" "b" "CELL") (fun _ => "") "png" :=
  c1_create_edit_exclusive_required _ _ _ (Or.inl ⟨by decide, by decide⟩)

/-- Claim C2: when `edit` names a raster the mapset lookup does not find,
and when `create` is given with a `base` the lookup does not find, the run
ends at the fatal error and no frame is ever constructed. -/
theorem c2_fatal_before_frame (o : Options) (lookup : String → String)
    (driver : String) (hr : rulesOk o = true) :
    (o.edit ≠ "" → lookup o.edit = "" →
      mainEvents o lookup driver =
        [Event.fatal ("Raster map <" ++ o.edit ++ "> not found in current mapset.")]
      ∧ ∀ w h2, Event.createFrame w h2 ∉ mainEvents o lookup driver) ∧
    (o.create ≠ "" → o.base ≠ "" → lookup o.base = "" →
      mainEvents o lookup driver =
        [Event.fatal ("Base raster map <" ++ o.base ++ "> not found in current mapset.")]
      ∧ ∀ w h2, Event.createFrame w h2 ∉ mainEvents o lookup driver) := by
  constructor
  · intro he hl
    have hev : mainEvents o lookup driver =
        [Event.fatal ("Raster map <" ++ o.edit ++ "> not found in current mapset.")] := by
      simp only [mainEvents, hr, if_true, resolveMaps, if_neg he, hl, if_pos rfl]
    refine ⟨hev, ?_⟩
    intro w h2
    rw [hev]
    simp
  · intro hc hb hl
    have he : o.edit = "" := edit_empty_of_rules hr hc
    have hev : mainEvents o lookup driver =
        [Event.fatal ("Base raster map <" ++ o.base ++ "> not found in current mapset.")] := by
      simp only [mainEvents, hr, if_true, resolveMaps, he, if_pos rfl,
        if_neg hb, hl, if_pos rfl]
    refine ⟨hev, ?_⟩
    intro w h2
    rw [hev]
    simp

/-- Witness for C2 at a concrete edit-mode assignment whose raster the
lookup does not find. -/
theorem c2_fatal_before_frame_witness :
    ((Options.mk "" "" "gone" "CELL").edit ≠ "" → (fun _ => "") (Options.mk "" "" "gone" "CELL").edit = "" →
      mainEvents (Options.mk "" "" "gone" "CELL") (fun _ => "") "png" =
        [Event.fatal ("Raster map <" ++ (Options.mk "" "" "gone" "CELL").edit ++ "> not found in current mapset.")]
      ∧ ∀ w h2, Event.createFrame w h2 ∉ mainEvents (Options.mk "" "" "gone" "CELL") (fun _ => "") "png") ∧
    ((Options.mk "" "" "gone" "CELL").create ≠ "" → (Options.mk "" "" "gone" "CELL").base ≠ "" → (fun _ => "") (Options.mk "" "" "gone" "CELL").base = "" →
      mainEvents (Options.mk "" "" "gone" "CELL") (fun _ => "") "png" =
        [Event.fatal ("Base raster map <" ++ (Options.mk "" "" "gone" "CELL").base ++ "> not found in current mapset.")]
      ∧ ∀ w h2, Event.createFrame w h2 ∉ mainEvents (Options.mk "" "" "gone" "CELL") (fun _ => "") "png") :=
  c2_fatal_before_frame (Options.mk "" "" "gone" "CELL") (fun _ => "") "png" (by decide)

/-- Claim C3: for a valid `edit` of an existing raster, construction adds
exactly one layer, named the given `edit` string, and takes the edit-mode
toolbar path (`SetSelection` then `OnMapSelection`), never `SelectNewMap`. -/
theorem c3_edit_mode_single_layer (o : Options) (known : List String)
    (driver : String) (hr : rulesOk o = true) (he : o.edit ≠ "")
    (hk : o.edit ∈ known) :
    (mainEvents o (specLookup known) driver).filter isAddLayer
        = [Event.addLayer (mkLayer o.edit "raster")] ∧
    (mkLayer o.edit "raster").name = o.edit ∧
    List.IsInfix [Event.setSelection 1, Event.onMapSelectionCall]
      (mainEvents o (specLookup known) driver) ∧
    ∀ s n b t, Event.selectNewMap s n b t ∉ mainEvents o (specLookup known) driver := by
  have hl : specLookup known o.edit = o.edit := by
    simp [specLookup, hk]
  have hl2 : specLookup known o.edit ≠ "" := by
    rw [hl]; exact he
  have hev := mainEvents_edit_path o (specLookup known) driver hr he hl2
  rw [hl] at hev
  refine ⟨?_, rfl, ?_, ?_⟩
  · rw [hev]
    simp [isAddLayer]
  · rw [hev]
    exact ⟨[Event.setEnv "GRASS_RENDER_IMMEDIATE"
         (if driver = "png" then "png" else "cairo"),
       Event.createFrame 850 600,
       Event.setIcon, Event.bindCloseWindow, Event.connectMapCreated,
       Event.addLayer (mkLayer o.edit "raster"),
       Event.addToolbar "rdigit"],
      [Event.disconnectQuitRDigit, Event.connectCloseHandler,
       Event.layoutFrame, Event.showFrame, Event.mainLoop], rfl⟩
  · intro s n b t
    rw [hev]
    simp

/-- Witness for C3 at `edit="r"` with `"r"` present in the mapset. -/
theorem c3_edit_mode_single_layer_witness :
    (mainEvents (Options.mk "" "" "r" "CELL") (specLookup ["r"]) "png").filter isAddLayer
        = [Event.addLayer (mkLayer (Options.mk "" "" "r" "CELL").edit "raster")] ∧
    (mkLayer (Options.mk "" "" "r" "CELL").edit "raster").name = (Options.mk "" "" "r" "CELL").edit ∧
    List.IsInfix [Event.setSelection 1, Event.onMapSelectionCall]
      (mainEvents (Options.mk "" "" "r" "CELL") (specLookup ["r"]) "png") ∧
    ∀ s n b t, Event.selectNewMap s n b t
      ∉ mainEvents (Options.mk "" "" "r" "CELL") (specLookup ["r"]) "png" :=
  c3_edit_mode_single_layer (Options.mk "" "" "r" "CELL") ["r"] "png"
    (by decide) (by decide) (by decide)

/-- Claim C4: for a valid `create`, construction takes the create-mode path:
the combo box is unbound, `SelectNewMap` is called with `standalone=True`,
and the combo box is rebound to `OnMapSelection`, as three consecutive
steps. -/
theorem c4_create_mode_rebinding (o : Options) (lookup : String → String)
    (driver : String) (hr : rulesOk o = true) (hc : o.create ≠ "")
    (hb : o.base = "" ∨ lookup o.base ≠ "") :
    List.IsInfix
      [Event.unbindCombo,
       Event.selectNewMap true o.create
         (if o.base = "" then o.base else lookup o.base) o.rtype,
       Event.bindCombo "OnMapSelection"]
      (mainEvents o lookup driver) := by
  rw [mainEvents_create_path o lookup driver hr hc hb]
  exact ⟨[Event.setEnv "GRASS_RENDER_IMMEDIATE"
       (if driver = "png" then "png" else "cairo"),
     Event.createFrame 850 600,
     Event.setIcon, Event.bindCloseWindow, Event.connectMapCreated,
     Event.addLayer (mkLayer o.create "raster"),
     Event.addToolbar "rdigit"],
    [Event.disconnectQuitRDigit, Event.connectCloseHandler,
     Event.layoutFrame, Event.showFrame, Event.mainLoop], rfl⟩

/-- Witness for C4 at `create="n"`, `base="bg"`, where the lookup resolves
`"bg"`. -/
theorem c4_create_mode_rebinding_witness :
    List.IsInfix
      [Event.unbindCombo,
       Event.selectNewMap true (Options.mk "n" "bg" "" "CELL").create
         (if (Options.mk "n" "bg" "" "CELL").base = ""
          then (Options.mk "n" "bg" "" "CELL").base
          else specLookup ["bg"] (Options.mk "n" "bg" "" "CELL").base)
         (Options.mk "n" "bg" "" "CELL").rtype,
       Event.bindCombo "OnMapSelection"]
      (mainEvents (Options.mk "n" "bg" "" "CELL") (specLookup ["bg"]) "png") :=
  c4_create_mode_rebinding (Options.mk "n" "bg" "" "CELL") (specLookup ["bg"])
    "png" (by decide) (by decide) (Or.inr (by decide))

/-- Claim C5: in every run that passes validation (rules hold and every
attempted raster lookup succeeds), `GRASS_RENDER_IMMEDIATE` is set to
"png" when the display-driver setting is "png" and to "cairo" otherwise,
and the assignment is the first event, in particular before the window is
shown. -/
theorem c5_render_driver_env (o : Options) (lookup : String → String)
    (driver : String) (hr : rulesOk o = true)
    (he : o.edit ≠ "" → lookup o.edit ≠ "")
    (hb : o.edit = "" → o.base ≠ "" → lookup o.base ≠ "") :
    ∃ t, mainEvents o lookup driver =
      Event.setEnv "GRASS_RENDER_IMMEDIATE"
        (if driver = "png" then "png" else "cairo") :: t ∧
      Event.showFrame ∈ t := by
  by_cases hed : o.edit = ""
  · have hc : o.create ≠ "" := by
      rcases (rulesOk_iff o).mp hr with ⟨-, hq, -⟩
      rcases hq with h1 | h2
      · exact h1
      · exact absurd hed h2
    have hev := mainEvents_create_path o lookup driver hr hc
      (by
        by_cases hb0 : o.base = ""
        · exact Or.inl hb0
        · exact Or.inr (hb hed hb0))
    rw [hev]
    exact ⟨_, rfl, by simp⟩
  · have hev := mainEvents_edit_path o lookup driver hr hed (he hed)
    rw [hev]
    exact ⟨_, rfl, by simp⟩

/-- Witness for C5 at a valid edit-mode run with a non-"png" driver. -/
theorem c5_render_driver_env_witness :
    ∃ t, mainEvents (Options.mk "" "" "r" "CELL") (specLookup ["r"]) "wx" =
      Event.setEnv "GRASS_RENDER_IMMEDIATE"
        (if ("wx" : String) = "png" then "png" else "cairo") :: t ∧
      Event.showFrame ∈ t :=
  c5_render_driver_env (Options.mk "" "" "r" "CELL") (specLookup ["r"]) "wx"
    (by decide) (fun _ => by decide) (fun h1 h2 => absurd rfl h2)

/-- Claim C6: in every constructed window, create or edit mode, the
digitizer's quit signal is rewired: `QuitRDigit` is disconnected and the
close handler is connected immediately after, as consecutive steps of the
construction. -/
theorem c6_quit_signal_rewired (o : Options) (lookup : String → String)
    (driver : String) (hr : rulesOk o = true)
    (he : o.edit ≠ "" → lookup o.edit ≠ "")
    (hb : o.edit = "" → o.base ≠ "" → lookup o.base ≠ "") :
    List.IsInfix [Event.disconnectQuitRDigit, Event.connectCloseHandler]
      (mainEvents o lookup driver) := by
  by_cases hed : o.edit = ""
  · have hc : o.create ≠ "" := by
      rcases (rulesOk_iff o).mp hr with ⟨-, hq, -⟩
      rcases hq with h1 | h2
      · exact h1
      · exact absurd hed h2
    have hev := mainEvents_create_path o lookup driver hr hc
      (by
        by_cases hb0 : o.base = ""
        · exact Or.inl hb0
        · exact Or.inr (hb hed hb0))
    rw [hev]
    exact ⟨[Event.setEnv "GRASS_RENDER_IMMEDIATE"
         (if driver = "png" then "png" else "cairo"),
       Event.createFrame 850 600,
       Event.setIcon, Event.bindCloseWindow, Event.connectMapCreated,
       Event.addLayer (mkLayer o.create "raster"),
       Event.addToolbar "rdigit",
       Event.unbindCombo,
       Event.selectNewMap true o.create
         (if o.base = "" then o.base else lookup o.base) o.rtype,
       Event.bindCombo "OnMapSelection"],
      [Event.layoutFrame, Event.showFrame, Event.mainLoop], rfl⟩
  · have hev := mainEvents_edit_path o lookup driver hr hed (he hed)
    rw [hev]
    exact ⟨[Event.setEnv "GRASS_RENDER_IMMEDIATE"
         (if driver = "png" then "png" else "cairo"),
       Event.createFrame 850 600,
       Event.setIcon, Event.bindCloseWindow, Event.connectMapCreated,
       Event.addLayer (mkLayer (lookup o.edit) "raster"),
       Event.addToolbar "rdigit",
       Event.setSelection 1, Event.onMapSelectionCall],
      [Event.layoutFrame, Event.showFrame, Event.mainLoop], rfl⟩

/-- Witness for C6 at a valid create-mode run without a base map. -/
theorem c6_quit_signal_rewired_witness :
    List.IsInfix [Event.disconnectQuitRDigit, Event.connectCloseHandler]
      (mainEvents (Options.mk "n" "" "" "CELL") (fun _ => "") "png") :=
  c6_quit_signal_rewired (Options.mk "n" "" "" "CELL") (fun _ => "") "png"
    (by decide) (fun h => absurd rfl h) (fun _ h => absurd rfl h)

/-- Claim C7: for every map-created notification, with any name and layer
type and any prior layer list, the handler first cleans the old layers,
then adds the fresh layer for the new map, then redraws, in that order; the
resulting layer list holds exactly the fresh layer. -/
theorem c7_map_created_clean_add_redraw (layers : List Layer)
    (name ltype : String) :
    (onMapCreated layers name ltype).2 =
      [Event.cleanLayers, Event.addLayer (mkLayer name ltype),
       Event.updateMap] ∧
    (onMapCreated layers name ltype).1 = [mkLayer name ltype] :=
  ⟨rfl, rfl⟩

/-- Counterexample to claim C8 as stated: with `create="newmap"` and no
`base`, validation passes (the `%rules` `requires: base, create` makes
`base` require `create`, not the converse) and the run constructs the
frame instead of failing. -/
theorem c8_counterexample :
    (Options.mk "newmap" "" "" "CELL").create ≠ "" ∧
    (Options.mk "newmap" "" "" "CELL").base = "" ∧
    rulesOk (Options.mk "newmap" "" "" "CELL") = true ∧
    mainEvents (Options.mk "newmap" "" "" "CELL") (fun _ => "") "png"
      ≠ [Event.parserError] ∧
    Event.createFrame 850 600
      ∈ mainEvents (Options.mk "newmap" "" "" "CELL") (fun _ => "") "png" := by
  refine ⟨by decide, rfl, by decide, ?_, ?_⟩ <;> decide

/-- Claim C8 amended: the dependency runs the other way round: whenever
`base` is supplied without `create`, validation fails and the run ends at
the parser error. -/
theorem c8_base_requires_create (o : Options) (lookup : String → String)
    (driver : String) (hb : o.base ≠ "") (hc : o.create = "") :
    rulesOk o = false ∧ mainEvents o lookup driver = [Event.parserError] := by
  have hf : rulesOk o = false := by
    rw [Bool.eq_false_iff]
    intro ht
    rcases (rulesOk_iff o).mp ht with ⟨-, -, hq⟩
    rcases hq with h1 | h2
    · exact hb h1
    · exact h2 hc
  exact ⟨hf, by simp [mainEvents, hf]⟩

/-- Witness for the amended C8 at `base="bg"`, `edit="r"`, no `create`. -/
theorem c8_base_requires_create_witness :
    rulesOk (Options.mk "" "bg" "r" "CELL") = false ∧
      mainEvents (Options.mk "" "bg" "r" "CELL") (fun _ => "") "png"
        = [Event.parserError] :=
  c8_base_requires_create (Options.mk "" "bg" "r" "CELL") (fun _ => "") "png"
    (by decide) (by decide)

lemma mkLayer_defaults (n t : String) :
    (mkLayer n t).active = true ∧ (mkLayer n t).hidden = false ∧
    (mkLayer n t).opacity = 1 ∧ (mkLayer n t).render = true ∧
    (mkLayer n t).command = ["d.rast", "map=" ++ (mkLayer n t).name] :=
  ⟨rfl, rfl, rfl, rfl, rfl⟩

lemma addLayer_mem_initEvents {l : Layer} {a b c d : String}
    (h : Event.addLayer l ∈ initEvents a b c d) :
    l = mkLayer (if a = "" then c else a) "raster" := by
  by_cases ha : a = "" <;> simp [initEvents, ha] at h <;> simp [ha, h]

lemma addLayer_mem_mainEvents {l : Layer} {o : Options}
    {lookup : String → String} {driver : String}
    (h : Event.addLayer l ∈ mainEvents o lookup driver) :
    ∃ x, l = mkLayer x "raster" := by
  unfold mainEvents at h
  by_cases hr : rulesOk o
  · rw [if_pos hr] at h
    cases hres : resolveMaps o lookup with
    | error msg => rw [hres] at h; simp at h
    | ok p =>
      rw [hres] at h
      obtain ⟨e, b⟩ := p
      simp only [List.mem_append, List.mem_cons, List.not_mem_nil,
        or_false, List.mem_singleton] at h
      rcases h with (h | h) | h
      · rcases h with h | h <;> exact absurd h (by simp)
      · exact ⟨_, addLayer_mem_initEvents h⟩
      · rcases h with h | h <;> exact absurd h (by simp)
  · rw [if_neg hr] at h
    simp at h

/-- Claim C9: every layer this script adds — the one added at construction
in any run, and every replacement layer added by the map-created handler —
carries `active=True`, `hidden=False`, `opacity=1.0`, `render=True` and the
render command `["d.rast", "map=<name>"]`. -/
theorem c9_layer_defaults (o : Options) (lookup : String → String)
    (driver : String) (layers : List Layer) (nm lt : String) :
    (∀ l, Event.addLayer l ∈ mainEvents o lookup driver →
      l.active = true ∧ l.hidden = false ∧ l.opacity = 1 ∧ l.render = true ∧
      l.command = ["d.rast", "map=" ++ l.name]) ∧
    (∀ l, Event.addLayer l ∈ (onMapCreated layers nm lt).2 →
      l.active = true ∧ l.hidden = false ∧ l.opacity = 1 ∧ l.render = true ∧
      l.command = ["d.rast", "map=" ++ l.name]) := by
  constructor
  · intro l hl
    obtain ⟨x, hx⟩ := addLayer_mem_mainEvents hl
    rw [hx]
    exact mkLayer_defaults _ _
  · intro l hl
    have hx : l = mkLayer nm lt := by
      simp [onMapCreated] at hl
      exact hl
    rw [hx]
    exact mkLayer_defaults _ _

/-- Witness for C9: the layer added by a concrete create-mode run has the
stated attributes. -/
theorem c9_layer_defaults_witness :
    (mkLayer "m" "raster").active = true ∧
    (mkLayer "m" "raster").hidden = false ∧
    (mkLayer "m" "raster").opacity = 1 ∧
    (mkLayer "m" "raster").render = true ∧
    (mkLayer "m" "raster").command
      = ["d.rast", "map=" ++ (mkLayer "m" "raster").name] :=
  (c9_layer_defaults (Options.mk "m" "" "" "CELL") (fun _ => "") "png"
      [] "x" "raster").1
    (mkLayer "m" "raster") (by decide)

/-- Claim C10: at construction exactly one layer is added; it is named the
`create` map when `create` is given and the `edit` map otherwise; the
`base` map is never added as a layer, it is only passed to `SelectNewMap`
as the background map in create mode. -/
theorem c10_constructor_layer (o : Options) (known : List String)
    (driver : String) (hr : rulesOk o = true)
    (he : o.edit ≠ "" → o.edit ∈ known)
    (hb : o.base ≠ "" → o.base ∈ known) :
    (mainEvents o (specLookup known) driver).filter isAddLayer =
      [Event.addLayer
        (mkLayer (if o.create = "" then o.edit else o.create) "raster")] ∧
    (o.create ≠ "" →
      Event.selectNewMap true o.create o.base o.rtype
        ∈ mainEvents o (specLookup known) driver) ∧
    (o.create = "" →
      ∀ s n b t, Event.selectNewMap s n b t
        ∉ mainEvents o (specLookup known) driver) := by
  by_cases hc : o.create = ""
  · have hed : o.edit ≠ "" := by
      rcases (rulesOk_iff o).mp hr with ⟨-, hq, -⟩
      rcases hq with h1 | h2
      · exact absurd hc h1
      · exact h2
    have hl : specLookup known o.edit = o.edit := by
      simp [specLookup, he hed]
    have hl2 : specLookup known o.edit ≠ "" := by
      rw [hl]; exact hed
    have hev := mainEvents_edit_path o (specLookup known) driver hr hed hl2
    rw [hl] at hev
    refine ⟨?_, fun h => absurd hc h, fun _ s n b t => ?_⟩
    · rw [hev]
      simp [isAddLayer, hc]
    · rw [hev]
      simp
  · have hbres : o.base = "" ∨ specLookup known o.base ≠ "" := by
      by_cases hb0 : o.base = ""
      · exact Or.inl hb0
      · refine Or.inr ?_
        have : specLookup known o.base = o.base := by
          simp [specLookup, hb hb0]
        rw [this]; exact hb0
    have hev := mainEvents_create_path o (specLookup known) driver hr hc hbres
    have hbm : (if o.base = "" then o.base else specLookup known o.base)
        = o.base := by
      by_cases hb0 : o.base = ""
      · rw [if_pos hb0]
      · rw [if_neg hb0]
        simp [specLookup, hb hb0]
    rw [hbm] at hev
    refine ⟨?_, fun _ => ?_, fun h => absurd h hc⟩
    · rw [hev]
      simp [isAddLayer, hc]
    · rw [hev]
      simp

/-- Witness for C10 at `create="n"`, `base="bg"` with `"bg"` present in the
mapset. -/
theorem c10_constructor_layer_witness :
    (mainEvents (Options.mk "n" "bg" "" "CELL") (specLookup ["bg"]) "png").filter
        isAddLayer =
      [Event.addLayer
        (mkLayer
          (if (Options.mk "n" "bg" "" "CELL").create = ""
           then (Options.mk "n" "bg" "" "CELL").edit
           else (Options.mk "n" "bg" "" "CELL").create) "raster")] ∧
    ((Options.mk "n" "bg" "" "CELL").create ≠ "" →
      Event.selectNewMap true (Options.mk "n" "bg" "" "CELL").create
          (Options.mk "n" "bg" "" "CELL").base
          (Options.mk "n" "bg" "" "CELL").rtype
        ∈ mainEvents (Options.mk "n" "bg" "" "CELL") (specLookup ["bg"]) "png") ∧
    ((Options.mk "n" "bg" "" "CELL").create = "" →
      ∀ s n b t, Event.selectNewMap s n b t
        ∉ mainEvents (Options.mk "n" "bg" "" "CELL") (specLookup ["bg"]) "png") :=
  c10_constructor_layer (Options.mk "n" "bg" "" "CELL") ["bg"] "png"
    (by decide) (fun h => absurd rfl h) (fun _ => by decide)
